import Mathlib

/-!
Verification of the network architecture defined in `src/model/PConv.py`
(classes `Conv`, `PConv`, `ChannelAttention`, `SpatialAttention`, `ResNet`,
`MSHNet`).

The code is a declarative wiring of tensor operations delegated to the
PyTorch runtime.  We shallowly embed it: a tensor is a shape
(batch, channels, height, width) together with a total real-valued data
function; reads outside the shape yield 0, which also gives zero padding
its meaning.  Floating point numbers are modelled by real numbers; batch
normalization is modelled in evaluation mode (per-channel affine map from
the stored statistics), which is the forward semantics relevant to every
claim here (no claim depends on the numeric output of a normalization).
Each Python class becomes a parameter structure (its learnable tensors)
plus an `init` function mirroring `__init__` and a `forward` function
mirroring `forward` line by line.
-/

/-- The shape of a 4-d tensor: (batch, channels, height, width). -/
structure Shape where
  batch : ℕ
  channels : ℕ
  height : ℕ
  width : ℕ
deriving DecidableEq, Repr

/-- A 4-d tensor: a shape plus a total data function.  Only the values at
indices inside the shape are meaningful; `Tensor.atI` reads with zero
extension (used for zero padding in convolutions). -/
structure Tensor where
  shape : Shape
  data : ℕ → ℕ → ℕ → ℕ → ℝ

/-- Read a tensor entry with zero extension outside the valid index range.
Spatial indices are integers so that convolution windows may reach over the
boundary (zero padding). -/
noncomputable def Tensor.atI (x : Tensor) (b c : ℕ) (i j : ℤ) : ℝ :=
  if b < x.shape.batch ∧ c < x.shape.channels ∧
      0 ≤ i ∧ i < (x.shape.height : ℤ) ∧ 0 ≤ j ∧ j < (x.shape.width : ℤ) then
    x.data b c i.toNat j.toNat
  else 0

/-- Output length of a 1-d convolution: floor((n + 2*p - (k-1) - 1)/s) + 1
(dilation 1, the only dilation used in this file). -/
def convOutDim (n k s p : ℕ) : ℕ := (n + 2 * p - (k - 1) - 1) / s + 1

/-- `torch.nn.Conv2d` forward (cross-correlation with zero padding), with
`cin` input channels, `cout` output channels, kernel `kh × kw`, stride `s`
(same in both directions, as everywhere in this file), and padding
`ph`/`pw`. -/
noncomputable def conv2dApply (cin cout kh kw s ph pw : ℕ)
    (w : ℕ → ℕ → ℕ → ℕ → ℝ) (bias : ℕ → ℝ) (x : Tensor) : Tensor :=
  { shape := ⟨x.shape.batch, cout,
      convOutDim x.shape.height kh s ph, convOutDim x.shape.width kw s pw⟩,
    data := fun bo co i j =>
      bias co + Finset.sum (Finset.range cin) fun ci =>
        Finset.sum (Finset.range kh) fun u =>
          Finset.sum (Finset.range kw) fun v =>
            w co ci u v *
              x.atI bo ci (((s * i + u : ℕ) : ℤ) - (ph : ℤ))
                (((s * j + v : ℕ) : ℤ) - (pw : ℤ)) }

/-- `torch.nn.ZeroPad2d` with padding `(pl, pr, pt, pb)` =
(left, right, top, bottom). -/
noncomputable def zeroPad2d (pl pr pt pb : ℕ) (x : Tensor) : Tensor :=
  { shape := ⟨x.shape.batch, x.shape.channels,
      x.shape.height + pt + pb, x.shape.width + pl + pr⟩,
    data := fun b c i j => x.atI b c ((i : ℤ) - (pt : ℤ)) ((j : ℤ) - (pl : ℤ)) }

/-- Parameters of a `torch.nn.BatchNorm2d` layer (evaluation mode). -/
structure BatchNorm2dL where
  weight : ℕ → ℝ
  bias : ℕ → ℝ
  running_mean : ℕ → ℝ
  running_var : ℕ → ℝ
  eps : ℝ

/-- `torch.nn.BatchNorm2d` forward in evaluation mode: a per-channel affine
map built from the stored statistics.  Shape preserving. -/
noncomputable def batchNorm2d (l : BatchNorm2dL) (x : Tensor) : Tensor :=
  { shape := x.shape,
    data := fun b c i j =>
      (x.data b c i j - l.running_mean c) / Real.sqrt (l.running_var c + l.eps)
        * l.weight c + l.bias c }

/-- The logistic sigmoid `1 / (1 + exp (-x))` (`torch.nn.Sigmoid`). -/
noncomputable def sigmoid (x : ℝ) : ℝ := 1 / (1 + Real.exp (-x))

/-- Elementwise sigmoid on a tensor. -/
noncomputable def sigmoidT (x : Tensor) : Tensor :=
  { shape := x.shape, data := fun b c i j => sigmoid (x.data b c i j) }

/-- Elementwise `torch.nn.ReLU`. -/
noncomputable def reluT (x : Tensor) : Tensor :=
  { shape := x.shape, data := fun b c i j => max (x.data b c i j) 0 }

/-- Elementwise `torch.nn.SiLU` (`x * sigmoid x`), the default activation of
the `Conv` wrapper class. -/
noncomputable def siluT (x : Tensor) : Tensor :=
  { shape := x.shape, data := fun b c i j => x.data b c i j * sigmoid (x.data b c i j) }

/-- `torch.nn.MaxPool2d(2, 2)`: 2×2 windows with stride 2. -/
noncomputable def maxPool2 (x : Tensor) : Tensor :=
  { shape := ⟨x.shape.batch, x.shape.channels, x.shape.height / 2, x.shape.width / 2⟩,
    data := fun b c i j =>
      max (max (x.atI b c (2 * i) (2 * j)) (x.atI b c (2 * i) (2 * j + 1)))
        (max (x.atI b c (2 * i + 1) (2 * j)) (x.atI b c (2 * i + 1) (2 * j + 1))) }

/-- Source coordinate of bilinear interpolation with `align_corners=True`:
`i * (nIn - 1) / (nOut - 1)`. -/
noncomputable def srcCoord (nIn nOut : ℕ) (i : ℕ) : ℝ :=
  if nOut ≤ 1 then 0 else (i : ℝ) * ((nIn : ℝ) - 1) / ((nOut : ℝ) - 1)

/-- `torch.nn.Upsample(scale_factor=s, mode='bilinear', align_corners=True)`
for an integer scale factor `s`. -/
noncomputable def upsampleBilinear (s : ℕ) (x : Tensor) : Tensor :=
  { shape := ⟨x.shape.batch, x.shape.channels, s * x.shape.height, s * x.shape.width⟩,
    data := fun b c i j =>
      let si : ℝ := srcCoord x.shape.height (s * x.shape.height) i
      let sj : ℝ := srcCoord x.shape.width (s * x.shape.width) j
      let i0 : ℤ := ⌊si⌋
      let j0 : ℤ := ⌊sj⌋
      let di : ℝ := si - (i0 : ℝ)
      let dj : ℝ := sj - (j0 : ℝ)
      (1 - di) * (1 - dj) * x.atI b c i0 j0 + (1 - di) * dj * x.atI b c i0 (j0 + 1)
        + di * (1 - dj) * x.atI b c (i0 + 1) j0 + di * dj * x.atI b c (i0 + 1) (j0 + 1) }

/-- `torch.cat(., dim=1)`: concatenation along the channel axis. -/
noncomputable def catC (x y : Tensor) : Tensor :=
  { shape := ⟨x.shape.batch, x.shape.channels + y.shape.channels,
      x.shape.height, x.shape.width⟩,
    data := fun b c i j =>
      if c < x.shape.channels then x.atI b c i j
      else y.atI b (c - x.shape.channels) i j }

/-- Index adjustment for PyTorch broadcasting: a dimension of extent 1 is
read at index 0. -/
def bIdx (n i : ℕ) : ℕ := if n = 1 then 0 else i

/-- Broadcasting elementwise product (used for the attention gates, where
one factor has extent 1 in the spatial or the channel dimensions). -/
noncomputable def mulB (x y : Tensor) : Tensor :=
  { shape := ⟨max x.shape.batch y.shape.batch, max x.shape.channels y.shape.channels,
      max x.shape.height y.shape.height, max x.shape.width y.shape.width⟩,
    data := fun b c i j =>
      x.atI (bIdx x.shape.batch b) (bIdx x.shape.channels c)
          (bIdx x.shape.height i) (bIdx x.shape.width j)
        * y.atI (bIdx y.shape.batch b) (bIdx y.shape.channels c)
            (bIdx y.shape.height i) (bIdx y.shape.width j) }

/-- Broadcasting elementwise sum (`+` / `+=` on tensors). -/
noncomputable def addB (x y : Tensor) : Tensor :=
  { shape := ⟨max x.shape.batch y.shape.batch, max x.shape.channels y.shape.channels,
      max x.shape.height y.shape.height, max x.shape.width y.shape.width⟩,
    data := fun b c i j =>
      x.atI (bIdx x.shape.batch b) (bIdx x.shape.channels c)
          (bIdx x.shape.height i) (bIdx x.shape.width j)
        + y.atI (bIdx y.shape.batch b) (bIdx y.shape.channels c)
            (bIdx y.shape.height i) (bIdx y.shape.width j) }

/-- `torch.mean(x, dim=1, keepdim=True)`: channel-wise mean. -/
noncomputable def meanDim1 (x : Tensor) : Tensor :=
  { shape := ⟨x.shape.batch, 1, x.shape.height, x.shape.width⟩,
    data := fun b _ i j =>
      (Finset.sum (Finset.range x.shape.channels) fun c => x.atI b c i j)
        / (x.shape.channels : ℝ) }

/-- `torch.max(x, dim=1, keepdim=True)` (values component): channel-wise
maximum. -/
noncomputable def maxDim1 (x : Tensor) : Tensor :=
  { shape := ⟨x.shape.batch, 1, x.shape.height, x.shape.width⟩,
    data := fun b _ i j =>
      (List.range x.shape.channels).foldl (fun m c => max m (x.atI b c i j))
        (x.atI b 0 i j) }

/-- `torch.nn.AdaptiveAvgPool2d(1)`: global spatial average. -/
noncomputable def adaptiveAvgPool1 (x : Tensor) : Tensor :=
  { shape := ⟨x.shape.batch, x.shape.channels, 1, 1⟩,
    data := fun b c _ _ =>
      (Finset.sum (Finset.range x.shape.height) fun i =>
        Finset.sum (Finset.range x.shape.width) fun j => x.atI b c i j)
        / ((x.shape.height : ℝ) * (x.shape.width : ℝ)) }

/-- `torch.nn.AdaptiveMaxPool2d(1)`: global spatial maximum. -/
noncomputable def adaptiveMaxPool1 (x : Tensor) : Tensor :=
  { shape := ⟨x.shape.batch, x.shape.channels, 1, 1⟩,
    data := fun b c _ _ =>
      (List.range x.shape.height).foldl
        (fun m i =>
          (List.range x.shape.width).foldl (fun m2 j => max m2 (x.atI b c i j)) m)
        (x.atI b c 0 0) }

/-- `autopad` from the source: explicit padding if given, else half the
(dilated) kernel size. -/
def autopad (k : ℕ) (p : Option ℕ) (d : ℕ) : ℕ :=
  let k' := if d > 1 then d * (k - 1) + 1 else k
  match p with
  | some p => p
  | none => k' / 2

/-- Parameters and hyperparameters of a plain `torch.nn.Conv2d` module (as
constructed in `ResNet.__init__` / `MSHNet.__init__`): `cin`/`cout`
channels, `kh × kw` kernel, stride `s`, symmetric padding `p`. -/
structure Conv2dL where
  cin : ℕ
  cout : ℕ
  kh : ℕ
  kw : ℕ
  s : ℕ
  p : ℕ
  w : ℕ → ℕ → ℕ → ℕ → ℝ
  b : ℕ → ℝ

/-- Apply a `Conv2dL`. -/
noncomputable def Conv2dL.apply (l : Conv2dL) (x : Tensor) : Tensor :=
  conv2dApply l.cin l.cout l.kh l.kw l.s l.p l.p l.w l.b x

/-- The `Conv` wrapper class: convolution (bias disabled), batch
normalization, activation.  All uses in this file keep the default
activation (SiLU). -/
structure ConvLayer where
  c1 : ℕ
  c2 : ℕ
  kh : ℕ
  kw : ℕ
  s : ℕ
  ph : ℕ
  pw : ℕ
  w : ℕ → ℕ → ℕ → ℕ → ℝ
  bn : BatchNorm2dL

/-- `Conv.__init__` for a (possibly non-square) kernel `kh × kw`: the
padding of each axis is resolved by `autopad` (dilation 1 in every use). -/
def Conv.init (c1 c2 kh kw s : ℕ) (p : Option ℕ) (w : ℕ → ℕ → ℕ → ℕ → ℝ)
    (bn : BatchNorm2dL) : ConvLayer :=
  { c1 := c1, c2 := c2, kh := kh, kw := kw, s := s,
    ph := autopad kh p 1, pw := autopad kw p 1, w := w, bn := bn }

/-- `Conv.forward`: activation (SiLU) of batch normalization of the
(bias-free) convolution. -/
noncomputable def ConvLayer.forward (l : ConvLayer) (x : Tensor) : Tensor :=
  siluT (batchNorm2d l.bn
    (conv2dApply l.c1 l.c2 l.kh l.kw l.s l.ph l.pw l.w (fun _ => 0) x))

/-- Learnable parameters of a `PConv` module: the shared width-wise `cw`,
the shared height-wise `ch` and the fusing `cat` wrapped convolutions. -/
structure PConvRaw where
  cwW : ℕ → ℕ → ℕ → ℕ → ℝ
  cwBn : BatchNorm2dL
  chW : ℕ → ℕ → ℕ → ℕ → ℝ
  chBn : BatchNorm2dL
  catW : ℕ → ℕ → ℕ → ℕ → ℝ
  catBn : BatchNorm2dL

/-- A constructed `PConv` module. -/
structure PConvL where
  c1 : ℕ
  c2 : ℕ
  k : ℕ
  s : ℕ
  cw : ConvLayer
  ch : ConvLayer
  cat : ConvLayer

/-- `PConv.__init__`: `cw = Conv(c1, c2//4, (1,k), s, p=0)`,
`ch = Conv(c1, c2//4, (k,1), s, p=0)`, `cat = Conv(c2, c2, 2, 1, p=0)`.
The four `ZeroPad2d` paddings `(k,0,1,0), (0,k,0,1), (0,1,k,0), (1,0,0,k)`
are applied inline in `forward`. -/
def PConv.init (c1 c2 k s : ℕ) (r : PConvRaw) : PConvL :=
  { c1 := c1, c2 := c2, k := k, s := s,
    cw := Conv.init c1 (c2 / 4) 1 k s (some 0) r.cwW r.cwBn,
    ch := Conv.init c1 (c2 / 4) k 1 s (some 0) r.chW r.chBn,
    cat := Conv.init c2 c2 2 2 1 (some 0) r.catW r.catBn }

/-- `PConv.forward`: the shared `cw` on the first two padded variants, the
shared `ch` on the other two, channel concatenation, final fusing `cat`. -/
noncomputable def PConv.forward (l : PConvL) (x : Tensor) : Tensor :=
  let yw0 := l.cw.forward (zeroPad2d l.k 0 1 0 x)
  let yw1 := l.cw.forward (zeroPad2d 0 l.k 0 1 x)
  let yh0 := l.ch.forward (zeroPad2d 0 1 l.k 0 x)
  let yh1 := l.ch.forward (zeroPad2d 1 0 0 l.k x)
  l.cat.forward (catC (catC (catC yw0 yw1) yh0) yh1)

/-- A `ChannelAttention` module: `fc1 : Conv2d(in_planes, in_planes//16, 1,
bias=False)` and `fc2 : Conv2d(in_planes//16, in_planes, 1, bias=False)`
(the `ratio` constructor argument of the source is unused: the reduction is
the literal 16). -/
structure ChannelAttentionL where
  in_planes : ℕ
  fc1w : ℕ → ℕ → ℕ → ℕ → ℝ
  fc2w : ℕ → ℕ → ℕ → ℕ → ℝ

/-- `ChannelAttention.forward`: the shared bottleneck on the global average
and global max descriptors, summed and passed through the sigmoid. -/
noncomputable def ChannelAttention.forward (l : ChannelAttentionL) (x : Tensor) : Tensor :=
  let avg_out := conv2dApply (l.in_planes / 16) l.in_planes 1 1 1 0 0 l.fc2w (fun _ => 0)
    (reluT (conv2dApply l.in_planes (l.in_planes / 16) 1 1 1 0 0 l.fc1w (fun _ => 0)
      (adaptiveAvgPool1 x)))
  let max_out := conv2dApply (l.in_planes / 16) l.in_planes 1 1 1 0 0 l.fc2w (fun _ => 0)
    (reluT (conv2dApply l.in_planes (l.in_planes / 16) 1 1 1 0 0 l.fc1w (fun _ => 0)
      (adaptiveMaxPool1 x)))
  sigmoidT (addB avg_out max_out)

/-- A `SpatialAttention` module: `conv1 : Conv2d(2, 1, kernel_size,
padding = 3 if kernel_size == 7 else 1, bias=False)`. -/
structure SpatialAttentionL where
  kernel_size : ℕ
  conv1w : ℕ → ℕ → ℕ → ℕ → ℝ

/-- `SpatialAttention.forward`: channel mean and channel max, concatenated,
convolved to one channel, passed through the sigmoid. -/
noncomputable def SpatialAttention.forward (l : SpatialAttentionL) (x : Tensor) : Tensor :=
  let padding := if l.kernel_size = 7 then 3 else 1
  let avg_out := meanDim1 x
  let max_out := maxDim1 x
  let xc := catC avg_out max_out
  sigmoidT (conv2dApply 2 1 l.kernel_size l.kernel_size 1 padding padding
    l.conv1w (fun _ => 0) xc)

/-- The shortcut projection of a `ResNet` block: a 1×1 convolution (with
bias, stride of the block) followed by batch normalization. -/
structure ShortcutL where
  w : ℕ → ℕ → ℕ → ℕ → ℝ
  b : ℕ → ℝ
  bn : BatchNorm2dL

/-- All learnable parameters of one `ResNet` block (both the partial and
the standard convolution parameter sets are carried; `self.PC` selects
which one `forward` uses, exactly as the source's `if PC:` does). -/
structure ResNetRaw where
  pconv1 : PConvRaw
  pconv2 : PConvRaw
  conv1w : ℕ → ℕ → ℕ → ℕ → ℝ
  conv1b : ℕ → ℝ
  conv2w : ℕ → ℕ → ℕ → ℕ → ℝ
  conv2b : ℕ → ℝ
  bn1 : BatchNorm2dL
  bn2 : BatchNorm2dL
  sc : ShortcutL
  caFc1w : ℕ → ℕ → ℕ → ℕ → ℝ
  caFc2w : ℕ → ℕ → ℕ → ℕ → ℝ
  saConv1w : ℕ → ℕ → ℕ → ℕ → ℝ

/-- A constructed `ResNet` block. -/
structure ResNetL where
  PC : Bool
  in_channels : ℕ
  out_channels : ℕ
  stride : ℕ
  pconv1 : PConvL
  pconv2 : PConvL
  conv1w : ℕ → ℕ → ℕ → ℕ → ℝ
  conv1b : ℕ → ℝ
  conv2w : ℕ → ℕ → ℕ → ℕ → ℝ
  conv2b : ℕ → ℝ
  bn1 : BatchNorm2dL
  bn2 : BatchNorm2dL
  shortcut : Option ShortcutL
  ca : ChannelAttentionL
  sa : SpatialAttentionL

/-- `ResNet.__init__`: partial convolutions use kernels 4 and 3; the
standard path uses two 3×3 convolutions (padding 1; the first with the
given stride); the shortcut is the projection exactly when
`stride != 1 or out_channels != in_channels`, and absent (identity)
otherwise; channel attention over `out_channels`; spatial attention with
the default kernel size 7. -/
def ResNet.init (in_channels out_channels stride : ℕ) (PC : Bool)
    (r : ResNetRaw) : ResNetL :=
  { PC := PC, in_channels := in_channels, out_channels := out_channels,
    stride := stride,
    pconv1 := PConv.init in_channels out_channels 4 stride r.pconv1,
    pconv2 := PConv.init out_channels out_channels 3 stride r.pconv2,
    conv1w := r.conv1w, conv1b := r.conv1b,
    conv2w := r.conv2w, conv2b := r.conv2b,
    bn1 := r.bn1, bn2 := r.bn2,
    shortcut := if stride ≠ 1 ∨ out_channels ≠ in_channels then some r.sc else none,
    ca := { in_planes := out_channels, fc1w := r.caFc1w, fc2w := r.caFc2w },
    sa := { kernel_size := 7, conv1w := r.saConv1w } }

/-- The residual branch of `ResNet.forward`: `residual = x`, replaced by
`self.shortcut(x)` when the shortcut projection exists. -/
noncomputable def ResNet.residual (l : ResNetL) (x : Tensor) : Tensor :=
  match l.shortcut with
  | some sc =>
      batchNorm2d sc.bn
        (conv2dApply l.in_channels l.out_channels 1 1 l.stride 0 0 sc.w sc.b x)
  | none => x

/-- The common tail of both branches of `ResNet.forward`:
`out = self.ca(out) * out`, `out = self.sa(out) * out`, `out += residual`,
`out = self.relu(out)` (these four lines appear verbatim in both the
partial and the standard branch of the source). -/
noncomputable def attnGatesRes (ca : ChannelAttentionL) (sa : SpatialAttentionL)
    (t res : Tensor) : Tensor :=
  let out := mulB (ChannelAttention.forward ca t) t
  let out := mulB (SpatialAttention.forward sa out) out
  reluT (addB out res)

/-- `ResNet.forward`, both branches of `if self.PC:` line by line.  The
partial branch is `conv1; conv2` (two `PConv`s, no separate normalization
or rectification between them); the standard branch is
`conv1; bn1; relu; conv2; bn2`; then both apply `attnGatesRes`. -/
noncomputable def ResNet.forward (l : ResNetL) (x : Tensor) : Tensor :=
  let residual := ResNet.residual l x
  if l.PC then
    attnGatesRes l.ca l.sa (PConv.forward l.pconv2 (PConv.forward l.pconv1 x)) residual
  else
    attnGatesRes l.ca l.sa
      (batchNorm2d l.bn2 (conv2dApply l.out_channels l.out_channels 3 3 1 1 1
        l.conv2w l.conv2b
        (reluT (batchNorm2d l.bn1 (conv2dApply l.in_channels l.out_channels 3 3
          l.stride 1 1 l.conv1w l.conv1b x)))))
      residual

/-- `nn.Sequential` of residual blocks. -/
noncomputable def seqForward (l : List ResNetL) (x : Tensor) : Tensor :=
  l.foldl (fun t blk => ResNet.forward blk t) x

/-- `MSHNet._make_layer`: the first block gets `(in_channels, out_channels,
PC=PC)`; the remaining `block_num - 1` blocks get `(out_channels,
out_channels)` with the defaults `stride=1`, `PC=False`. -/
def make_layer (in_channels out_channels block_num : ℕ) (PC : Bool)
    (ps : ℕ → ResNetRaw) : List ResNetL :=
  ResNet.init in_channels out_channels 1 PC (ps 0) ::
    (List.range (block_num - 1)).map
      (fun i => ResNet.init out_channels out_channels 1 false (ps (i + 1)))

/-- All learnable parameters of an `MSHNet` (a supply function per stage
gives the parameters of that stage's successive blocks). -/
structure MSHNetRaw where
  conv_initW : ℕ → ℕ → ℕ → ℕ → ℝ
  conv_initB : ℕ → ℝ
  e0 : ℕ → ResNetRaw
  e1 : ℕ → ResNetRaw
  e2 : ℕ → ResNetRaw
  e3 : ℕ → ResNetRaw
  mid : ℕ → ResNetRaw
  d3 : ℕ → ResNetRaw
  d2 : ℕ → ResNetRaw
  d1 : ℕ → ResNetRaw
  d0 : ℕ → ResNetRaw
  out0W : ℕ → ℕ → ℕ → ℕ → ℝ
  out0B : ℕ → ℝ
  out1W : ℕ → ℕ → ℕ → ℕ → ℝ
  out1B : ℕ → ℝ
  out2W : ℕ → ℕ → ℕ → ℕ → ℝ
  out2B : ℕ → ℝ
  out3W : ℕ → ℕ → ℕ → ℕ → ℝ
  out3B : ℕ → ℝ
  finalW : ℕ → ℕ → ℕ → ℕ → ℝ
  finalB : ℕ → ℝ

/-- A constructed `MSHNet`.  The four upsampling modules carry only their
scale factors (`up`, `up_4`, `up_8`, `up_16`). -/
structure MSHNetL where
  input_channels : ℕ
  up_scale : ℕ
  up_4_scale : ℕ
  up_8_scale : ℕ
  up_16_scale : ℕ
  conv_init : Conv2dL
  encoder_0 : List ResNetL
  encoder_1 : List ResNetL
  encoder_2 : List ResNetL
  encoder_3 : List ResNetL
  middle_layer : List ResNetL
  decoder_3 : List ResNetL
  decoder_2 : List ResNetL
  decoder_1 : List ResNetL
  decoder_0 : List ResNetL
  output_0 : Conv2dL
  output_1 : Conv2dL
  output_2 : Conv2dL
  output_3 : Conv2dL
  final : Conv2dL

/-- `MSHNet.__init__` with `param_channels = [16, 32, 64, 128, 256]` and
`param_blocks = [2, 2, 2, 2]`.  Note `up_16 = nn.Upsample(scale_factor=4)`
in the source, despite its name.  Only `encoder_0` receives the `PC`
flag. -/
def MSHNet.init (input_channels : ℕ) (PC : Bool) (r : MSHNetRaw) : MSHNetL :=
  { input_channels := input_channels,
    up_scale := 2, up_4_scale := 4, up_8_scale := 8, up_16_scale := 4,
    conv_init := ⟨input_channels, 16, 1, 1, 1, 0, r.conv_initW, r.conv_initB⟩,
    encoder_0 := make_layer 16 16 1 PC r.e0,
    encoder_1 := make_layer 16 32 2 false r.e1,
    encoder_2 := make_layer 32 64 2 false r.e2,
    encoder_3 := make_layer 64 128 2 false r.e3,
    middle_layer := make_layer 128 256 2 false r.mid,
    decoder_3 := make_layer (128 + 256) 128 2 false r.d3,
    decoder_2 := make_layer (64 + 128) 64 2 false r.d2,
    decoder_1 := make_layer (32 + 64) 32 2 false r.d1,
    decoder_0 := make_layer (16 + 32) 16 1 false r.d0,
    output_0 := ⟨16, 1, 1, 1, 1, 0, r.out0W, r.out0B⟩,
    output_1 := ⟨32, 1, 1, 1, 1, 0, r.out1W, r.out1B⟩,
    output_2 := ⟨64, 1, 1, 1, 1, 0, r.out2W, r.out2B⟩,
    output_3 := ⟨128, 1, 1, 1, 1, 0, r.out3W, r.out3B⟩,
    final := ⟨4, 1, 3, 3, 1, 1, r.finalW, r.finalB⟩ }

/-- `x_e0 = self.encoder_0(self.conv_init(x))`. -/
noncomputable def MSHNet.x_e0 (m : MSHNetL) (x : Tensor) : Tensor :=
  seqForward m.encoder_0 (m.conv_init.apply x)

/-- `x_e1 = self.encoder_1(self.pool(x_e0))`. -/
noncomputable def MSHNet.x_e1 (m : MSHNetL) (x : Tensor) : Tensor :=
  seqForward m.encoder_1 (maxPool2 (MSHNet.x_e0 m x))

/-- `x_e2 = self.encoder_2(self.pool(x_e1))`. -/
noncomputable def MSHNet.x_e2 (m : MSHNetL) (x : Tensor) : Tensor :=
  seqForward m.encoder_2 (maxPool2 (MSHNet.x_e1 m x))

/-- `x_e3 = self.encoder_3(self.pool(x_e2))`. -/
noncomputable def MSHNet.x_e3 (m : MSHNetL) (x : Tensor) : Tensor :=
  seqForward m.encoder_3 (maxPool2 (MSHNet.x_e2 m x))

/-- `x_m = self.middle_layer(self.pool(x_e3))`. -/
noncomputable def MSHNet.x_m (m : MSHNetL) (x : Tensor) : Tensor :=
  seqForward m.middle_layer (maxPool2 (MSHNet.x_e3 m x))

/-- `x_d3 = self.decoder_3(torch.cat([x_e3, self.up(x_m)], 1))`. -/
noncomputable def MSHNet.x_d3 (m : MSHNetL) (x : Tensor) : Tensor :=
  seqForward m.decoder_3
    (catC (MSHNet.x_e3 m x) (upsampleBilinear m.up_scale (MSHNet.x_m m x)))

/-- `x_d2 = self.decoder_2(torch.cat([x_e2, self.up(x_d3)], 1))`. -/
noncomputable def MSHNet.x_d2 (m : MSHNetL) (x : Tensor) : Tensor :=
  seqForward m.decoder_2
    (catC (MSHNet.x_e2 m x) (upsampleBilinear m.up_scale (MSHNet.x_d3 m x)))

/-- `x_d1 = self.decoder_1(torch.cat([x_e1, self.up(x_d2)], 1))`. -/
noncomputable def MSHNet.x_d1 (m : MSHNetL) (x : Tensor) : Tensor :=
  seqForward m.decoder_1
    (catC (MSHNet.x_e1 m x) (upsampleBilinear m.up_scale (MSHNet.x_d2 m x)))

/-- `x_d0 = self.decoder_0(torch.cat([x_e0, self.up(x_d1)], 1))`. -/
noncomputable def MSHNet.x_d0 (m : MSHNetL) (x : Tensor) : Tensor :=
  seqForward m.decoder_0
    (catC (MSHNet.x_e0 m x) (upsampleBilinear m.up_scale (MSHNet.x_d1 m x)))

/-- The tuple of all forward-pass intermediates of `MSHNet.forward` (the
locals `x_e0 … x_d0`), which are computed before `warm_flag` is
inspected. -/
structure MSHNetCore where
  x_e0 : Tensor
  x_e1 : Tensor
  x_e2 : Tensor
  x_e3 : Tensor
  x_m : Tensor
  x_d3 : Tensor
  x_d2 : Tensor
  x_d1 : Tensor
  x_d0 : Tensor

/-- The flag-independent part of `MSHNet.forward`. -/
noncomputable def MSHNet.core (m : MSHNetL) (x : Tensor) : MSHNetCore :=
  ⟨MSHNet.x_e0 m x, MSHNet.x_e1 m x, MSHNet.x_e2 m x, MSHNet.x_e3 m x,
   MSHNet.x_m m x, MSHNet.x_d3 m x, MSHNet.x_d2 m x, MSHNet.x_d1 m x,
   MSHNet.x_d0 m x⟩

/-- The `warm_flag` branch of `MSHNet.forward`, as a function of the
already-computed intermediates: the four 1×1 heads, and the fused map
obtained from `mask0`, `up(mask1)`, `up_4(mask2)`, `up_8(mask3)`. -/
noncomputable def MSHNet.warmHeads (m : MSHNetL) (k : MSHNetCore) :
    List Tensor × Tensor :=
  let mask0 := m.output_0.apply k.x_d0
  let mask1 := m.output_1.apply k.x_d1
  let mask2 := m.output_2.apply k.x_d2
  let mask3 := m.output_3.apply k.x_d3
  let output := m.final.apply
    (catC (catC (catC mask0 (upsampleBilinear m.up_scale mask1))
        (upsampleBilinear m.up_4_scale mask2))
      (upsampleBilinear m.up_8_scale mask3))
  ([mask0, mask1, mask2, mask3], output)

/-- `MSHNet.forward`: the intermediates `x_e0 … x_d0` are computed, then
`warm_flag` selects which output heads are applied to them. -/
noncomputable def MSHNet.forward (m : MSHNetL) (x : Tensor) (warm_flag : Bool) :
    List Tensor × Tensor :=
  if warm_flag then
    let mask0 := m.output_0.apply (MSHNet.x_d0 m x)
    let mask1 := m.output_1.apply (MSHNet.x_d1 m x)
    let mask2 := m.output_2.apply (MSHNet.x_d2 m x)
    let mask3 := m.output_3.apply (MSHNet.x_d3 m x)
    let output := m.final.apply
      (catC (catC (catC mask0 (upsampleBilinear m.up_scale mask1))
          (upsampleBilinear m.up_4_scale mask2))
        (upsampleBilinear m.up_8_scale mask3))
    ([mask0, mask1, mask2, mask3], output)
  else
    ([], m.output_0.apply (MSHNet.x_d0 m x))

/-- Replace only the `up_16` module of a constructed `MSHNet` (used to state
that `up_16` is dead in the forward computation). -/
def setUp16 (m : MSHNetL) (s : ℕ) : MSHNetL := { m with up_16_scale := s }

/-- Zero batch-normalization parameters (concrete instantiation input). -/
noncomputable def bn0 : BatchNorm2dL :=
  ⟨fun _ => 0, fun _ => 0, fun _ => 0, fun _ => 0, 0⟩

/-- Zero `PConv` parameters. -/
noncomputable def pr0 : PConvRaw :=
  ⟨fun _ _ _ _ => 0, bn0, fun _ _ _ _ => 0, bn0, fun _ _ _ _ => 0, bn0⟩

/-- Zero `ResNet` block parameters. -/
noncomputable def rr0 : ResNetRaw :=
  ⟨pr0, pr0, fun _ _ _ _ => 0, fun _ => 0, fun _ _ _ _ => 0, fun _ => 0,
   bn0, bn0, ⟨fun _ _ _ _ => 0, fun _ => 0, bn0⟩,
   fun _ _ _ _ => 0, fun _ _ _ _ => 0, fun _ _ _ _ => 0⟩

/-- Zero `MSHNet` parameters. -/
noncomputable def mr0 : MSHNetRaw :=
  ⟨fun _ _ _ _ => 0, fun _ => 0,
   fun _ => rr0, fun _ => rr0, fun _ => rr0, fun _ => rr0, fun _ => rr0,
   fun _ => rr0, fun _ => rr0, fun _ => rr0, fun _ => rr0,
   fun _ _ _ _ => 0, fun _ => 0, fun _ _ _ _ => 0, fun _ => 0,
   fun _ _ _ _ => 0, fun _ => 0, fun _ _ _ _ => 0, fun _ => 0,
   fun _ _ _ _ => 0, fun _ => 0⟩

/-- A concrete all-zero input of shape (1, 3, 256, 256). -/
noncomputable def x256 : Tensor := ⟨⟨1, 3, 256, 256⟩, fun _ _ _ _ => 0⟩

/-- A concrete all-zero input of shape (1, 16, 64, 64). -/
noncomputable def x64 : Tensor := ⟨⟨1, 16, 64, 64⟩, fun _ _ _ _ => 0⟩

/-- A concrete all-zero input of shape (1, 16, 8, 8). -/
noncomputable def x16 : Tensor := ⟨⟨1, 16, 8, 8⟩, fun _ _ _ _ => 0⟩

/-- The sigmoid gate is strictly positive. -/
theorem sigmoid_pos (x : ℝ) : 0 < sigmoid x := by
  have h := Real.exp_pos (-x)
  unfold sigmoid
  positivity

/-- The sigmoid gate is strictly below one. -/
theorem sigmoid_lt_one (x : ℝ) : sigmoid x < 1 := by
  have h := Real.exp_pos (-x)
  unfold sigmoid
  rw [div_lt_one (by linarith)]
  linarith

/-- A 1×1 stride-1 unpadded convolution preserves a positive length. -/
theorem convOutDim_one (n : ℕ) (h : 0 < n) : convOutDim n 1 1 0 = n := by
  simp [convOutDim]; omega

/-- A 3×3 stride-1 padding-1 convolution preserves a positive length. -/
theorem convOutDim_three (n : ℕ) (h : 0 < n) : convOutDim n 3 1 1 = n := by
  simp [convOutDim]; omega

/-- A 7×7 stride-1 padding-3 convolution preserves a positive length. -/
theorem convOutDim_seven (n : ℕ) (h : 0 < n) : convOutDim n 7 1 3 = n := by
  simp [convOutDim]; omega

/-- A 1×k stride-1 unpadded convolution on a length extended by `k`. -/
theorem convOutDim_shrink (n k : ℕ) (hk : 1 ≤ k) : convOutDim (n + k) k 1 0 = n + 1 := by
  simp [convOutDim]; omega

/-- A 2×2 stride-1 unpadded convolution contracts a length by one. -/
theorem convOutDim_two (n : ℕ) (h : 0 < n) : convOutDim (n + 1) 2 1 0 = n := by
  simp [convOutDim]; omega

/-- Shape of a channel-attention output: per-channel 1×1 map. -/
theorem channelAttention_shape (l : ChannelAttentionL) (x : Tensor) (b0 C H W : ℕ)
    (hx : x.shape = ⟨b0, C, H, W⟩) :
    (ChannelAttention.forward l x).shape = ⟨b0, l.in_planes, 1, 1⟩ := by
  simp [ChannelAttention.forward, sigmoidT, addB, conv2dApply, reluT,
    adaptiveAvgPool1, adaptiveMaxPool1, convOutDim, hx]

/-- Shape of a spatial-attention output: one channel, same spatial size
(kernel size 3 with padding 1, or 7 with padding 3). -/
theorem spatialAttention_shape (l : SpatialAttentionL) (x : Tensor) (b0 C H W : ℕ)
    (hx : x.shape = ⟨b0, C, H, W⟩) (hk : l.kernel_size = 3 ∨ l.kernel_size = 7)
    (hH : 0 < H) (hW : 0 < W) :
    (SpatialAttention.forward l x).shape = ⟨b0, 1, H, W⟩ := by
  rcases hk with hk | hk <;>
    simp [SpatialAttention.forward, hk, sigmoidT, conv2dApply, catC, meanDim1,
      maxDim1, convOutDim, hx] <;>
    omega

/-- Shape of a stride-1 `PConv`: the four directional branches all produce
`(b, c2/4, H+1, W+1)` maps and the final 2×2 fusing convolution contracts
them back to `(b, c2, H, W)`. -/
theorem pconv_forward_shape (c1 c2 k : ℕ) (pr : PConvRaw) (x : Tensor)
    (b0 C H W : ℕ) (hx : x.shape = ⟨b0, C, H, W⟩) (hk : 1 ≤ k)
    (hH : 0 < H) (hW : 0 < W) :
    (PConv.forward (PConv.init c1 c2 k 1 pr) x).shape = ⟨b0, c2, H, W⟩ := by
  simp [PConv.forward, PConv.init, Conv.init, autopad, ConvLayer.forward, siluT,
    batchNorm2d, conv2dApply, zeroPad2d, catC, hx, convOutDim]
  omega

/-- Shape projection of `mulB`: componentwise maximum. -/
theorem mulB_shape (x y : Tensor) : (mulB x y).shape =
    ⟨max x.shape.batch y.shape.batch, max x.shape.channels y.shape.channels,
      max x.shape.height y.shape.height, max x.shape.width y.shape.width⟩ := rfl

/-- Shape projection of `addB`: componentwise maximum. -/
theorem addB_shape (x y : Tensor) : (addB x y).shape =
    ⟨max x.shape.batch y.shape.batch, max x.shape.channels y.shape.channels,
      max x.shape.height y.shape.height, max x.shape.width y.shape.width⟩ := rfl

/-- `reluT` preserves the shape. -/
theorem reluT_shape (x : Tensor) : (reluT x).shape = x.shape := rfl

/-- Shape of the shared attention-gate tail. -/
theorem attnGatesRes_shape (ca : ChannelAttentionL) (sa : SpatialAttentionL)
    (t res : Tensor) (b0 C H W : ℕ)
    (ht : t.shape = ⟨b0, C, H, W⟩) (hres : res.shape = ⟨b0, C, H, W⟩)
    (hca : ca.in_planes = C) (hsa : sa.kernel_size = 7)
    (hC : 0 < C) (hH : 0 < H) (hW : 0 < W) :
    (attnGatesRes ca sa t res).shape = ⟨b0, C, H, W⟩ := by
  have h1 : (mulB (ChannelAttention.forward ca t) t).shape = ⟨b0, C, H, W⟩ := by
    rw [mulB_shape, channelAttention_shape ca t b0 C H W ht, ht, hca]
    simp [Nat.max_self, Nat.max_eq_right hH, Nat.max_eq_right hW]
  have h2 : (SpatialAttention.forward sa (mulB (ChannelAttention.forward ca t) t)).shape
      = ⟨b0, 1, H, W⟩ :=
    spatialAttention_shape _ _ b0 C H W h1 (Or.inr hsa) hH hW
  show (reluT (addB (mulB (SpatialAttention.forward sa
      (mulB (ChannelAttention.forward ca t) t))
      (mulB (ChannelAttention.forward ca t) t)) res)).shape = _
  rw [reluT_shape, addB_shape, mulB_shape, h1, h2, hres]
  simp [Nat.max_self, Nat.max_eq_right hC]

/-- Shape of the residual branch of a stride-1 block: `(b, cout, H, W)`
via either the identity (when the channel counts agree) or the 1×1
projection. -/
theorem resnet_residual_shape (cin cout : ℕ) (pc : Bool) (r : ResNetRaw)
    (x : Tensor) (b0 H W : ℕ) (hx : x.shape = ⟨b0, cin, H, W⟩)
    (hH : 0 < H) (hW : 0 < W) :
    (ResNet.residual (ResNet.init cin cout 1 pc r) x).shape = ⟨b0, cout, H, W⟩ := by
  by_cases h : cout = cin
  · simp [ResNet.residual, ResNet.init, h, hx]
  · simp [ResNet.residual, ResNet.init, h, batchNorm2d, conv2dApply, hx, convOutDim]
    omega

/-- Shape of a stride-1 `ResNet` block (either branch): spatial size is
preserved and the channel count becomes `out_channels`. -/
theorem resnet_forward_shape (cin cout : ℕ) (pc : Bool) (r : ResNetRaw)
    (x : Tensor) (b0 H W : ℕ) (hx : x.shape = ⟨b0, cin, H, W⟩)
    (hc : 0 < cout) (hH : 0 < H) (hW : 0 < W) :
    (ResNet.forward (ResNet.init cin cout 1 pc r) x).shape = ⟨b0, cout, H, W⟩ := by
  have hres := resnet_residual_shape cin cout pc r x b0 H W hx hH hW
  cases pc with
  | true =>
      have hfw : ResNet.forward (ResNet.init cin cout 1 true r) x =
          attnGatesRes (ResNet.init cin cout 1 true r).ca
            (ResNet.init cin cout 1 true r).sa
            (PConv.forward (PConv.init cout cout 3 1 r.pconv2)
              (PConv.forward (PConv.init cin cout 4 1 r.pconv1) x))
            (ResNet.residual (ResNet.init cin cout 1 true r) x) := rfl
      rw [hfw]
      have hp1 := pconv_forward_shape cin cout 4 r.pconv1 x b0 cin H W hx
        (by omega) hH hW
      have hp2 := pconv_forward_shape cout cout 3 r.pconv2 _ b0 cout H W hp1
        (by omega) hH hW
      exact attnGatesRes_shape _ _ _ _ b0 cout H W hp2 hres rfl rfl hc hH hW
  | false =>
      have hfw : ResNet.forward (ResNet.init cin cout 1 false r) x =
          attnGatesRes (ResNet.init cin cout 1 false r).ca
            (ResNet.init cin cout 1 false r).sa
            (batchNorm2d r.bn2 (conv2dApply cout cout 3 3 1 1 1
              r.conv2w r.conv2b
              (reluT (batchNorm2d r.bn1 (conv2dApply cin cout 3 3
                1 1 1 r.conv1w r.conv1b x)))))
            (ResNet.residual (ResNet.init cin cout 1 false r) x) := rfl
      rw [hfw]
      have hmain : (batchNorm2d r.bn2 (conv2dApply cout cout 3 3 1 1 1
          r.conv2w r.conv2b
          (reluT (batchNorm2d r.bn1 (conv2dApply cin cout 3 3
            1 1 1 r.conv1w r.conv1b x))))).shape = ⟨b0, cout, H, W⟩ := by
        simp [batchNorm2d, reluT, conv2dApply, hx, convOutDim]
        omega
      exact attnGatesRes_shape _ _ _ _ b0 cout H W hmain hres rfl rfl hc hH hW

/-- A sequence of stride-1 `out → out` standard blocks preserves the
shape. -/
theorem seqForward_tail_shape (cout : ℕ) (rs : List ResNetRaw) (x : Tensor)
    (b0 H W : ℕ) (hx : x.shape = ⟨b0, cout, H, W⟩)
    (hc : 0 < cout) (hH : 0 < H) (hW : 0 < W) :
    (seqForward (rs.map fun rr => ResNet.init cout cout 1 false rr) x).shape
      = ⟨b0, cout, H, W⟩ := by
  induction rs generalizing x with
  | nil => simpa [seqForward] using hx
  | cons a t ih =>
      have h1 := resnet_forward_shape cout cout false a x b0 H W hx hc hH hW
      simpa [seqForward] using
        ih (ResNet.forward (ResNet.init cout cout 1 false a) x) h1

/-- Shape of a whole `_make_layer` stage: channel count `out_channels`,
spatial size preserved (all blocks have stride 1). -/
theorem make_layer_seq_shape (cin cout n : ℕ) (pc : Bool) (ps : ℕ → ResNetRaw)
    (x : Tensor) (b0 H W : ℕ) (hx : x.shape = ⟨b0, cin, H, W⟩)
    (hc : 0 < cout) (hH : 0 < H) (hW : 0 < W) :
    (seqForward (make_layer cin cout n pc ps) x).shape = ⟨b0, cout, H, W⟩ := by
  have h0 := resnet_forward_shape cin cout pc (ps 0) x b0 H W hx hc hH hW
  have h1 := seqForward_tail_shape cout ((List.range (n - 1)).map fun i => ps (i + 1))
    (ResNet.forward (ResNet.init cin cout 1 pc (ps 0)) x) b0 H W h0 hc hH hW
  simpa [make_layer, seqForward, List.map_map, Function.comp] using h1

/-- Shape projection of `maxPool2`: spatial halving (floor). -/
theorem maxPool2_shape (x : Tensor) : (maxPool2 x).shape =
    ⟨x.shape.batch, x.shape.channels, x.shape.height / 2, x.shape.width / 2⟩ := rfl

/-- Shape projection of `upsampleBilinear`: spatial scaling. -/
theorem upsampleBilinear_shape (s : ℕ) (x : Tensor) : (upsampleBilinear s x).shape =
    ⟨x.shape.batch, x.shape.channels, s * x.shape.height, s * x.shape.width⟩ := rfl

/-- Shape projection of `catC`: channel counts add. -/
theorem catC_shape (x y : Tensor) : (catC x y).shape =
    ⟨x.shape.batch, x.shape.channels + y.shape.channels,
      x.shape.height, x.shape.width⟩ := rfl

/-- Shape projection of `Conv2dL.apply`. -/
theorem conv2dL_apply_shape (l : Conv2dL) (x : Tensor) : (l.apply x).shape =
    ⟨x.shape.batch, l.cout, convOutDim x.shape.height l.kh l.s l.p,
      convOutDim x.shape.width l.kw l.s l.p⟩ := rfl

/-- Shapes of all nine intermediates of `MSHNet.forward` on an input whose
spatial size is `(16*mh) × (16*mw)`: the encoder halves the spatial size at
each stage (16, 32, 64, 128 channels), the bottleneck runs at 1/16 scale
(256 channels), and the decoder doubles it back (128, 64, 32, 16
channels). -/
theorem mshnet_core_shapes (c : ℕ) (pc : Bool) (r : MSHNetRaw) (x : Tensor)
    (b0 ch mh mw : ℕ) (hx : x.shape = ⟨b0, ch, 16 * mh, 16 * mw⟩)
    (hmh : 0 < mh) (hmw : 0 < mw) :
    (MSHNet.x_e0 (MSHNet.init c pc r) x).shape = ⟨b0, 16, 16 * mh, 16 * mw⟩
    ∧ (MSHNet.x_e1 (MSHNet.init c pc r) x).shape = ⟨b0, 32, 8 * mh, 8 * mw⟩
    ∧ (MSHNet.x_e2 (MSHNet.init c pc r) x).shape = ⟨b0, 64, 4 * mh, 4 * mw⟩
    ∧ (MSHNet.x_e3 (MSHNet.init c pc r) x).shape = ⟨b0, 128, 2 * mh, 2 * mw⟩
    ∧ (MSHNet.x_m (MSHNet.init c pc r) x).shape = ⟨b0, 256, mh, mw⟩
    ∧ (MSHNet.x_d3 (MSHNet.init c pc r) x).shape = ⟨b0, 128, 2 * mh, 2 * mw⟩
    ∧ (MSHNet.x_d2 (MSHNet.init c pc r) x).shape = ⟨b0, 64, 4 * mh, 4 * mw⟩
    ∧ (MSHNet.x_d1 (MSHNet.init c pc r) x).shape = ⟨b0, 32, 8 * mh, 8 * mw⟩
    ∧ (MSHNet.x_d0 (MSHNet.init c pc r) x).shape = ⟨b0, 16, 16 * mh, 16 * mw⟩ := by
  have hci : ((MSHNet.init c pc r).conv_init.apply x).shape
      = ⟨b0, 16, 16 * mh, 16 * mw⟩ := by
    rw [conv2dL_apply_shape, hx]
    simp [MSHNet.init, convOutDim]
    omega
  have he0 : (MSHNet.x_e0 (MSHNet.init c pc r) x).shape = ⟨b0, 16, 16 * mh, 16 * mw⟩ := by
    rw [MSHNet.x_e0]
    show (seqForward (make_layer 16 16 1 pc r.e0) _).shape = _
    exact make_layer_seq_shape 16 16 1 pc r.e0 _ b0 (16 * mh) (16 * mw) hci
      (by omega) (by omega) (by omega)
  have hp1 : (maxPool2 (MSHNet.x_e0 (MSHNet.init c pc r) x)).shape
      = ⟨b0, 16, 8 * mh, 8 * mw⟩ := by
    rw [maxPool2_shape, he0]; simp; omega
  have he1 : (MSHNet.x_e1 (MSHNet.init c pc r) x).shape = ⟨b0, 32, 8 * mh, 8 * mw⟩ := by
    rw [MSHNet.x_e1]
    show (seqForward (make_layer 16 32 2 false r.e1) _).shape = _
    exact make_layer_seq_shape 16 32 2 false r.e1 _ b0 (8 * mh) (8 * mw) hp1
      (by omega) (by omega) (by omega)
  have hp2 : (maxPool2 (MSHNet.x_e1 (MSHNet.init c pc r) x)).shape
      = ⟨b0, 32, 4 * mh, 4 * mw⟩ := by
    rw [maxPool2_shape, he1]; simp; omega
  have he2 : (MSHNet.x_e2 (MSHNet.init c pc r) x).shape = ⟨b0, 64, 4 * mh, 4 * mw⟩ := by
    rw [MSHNet.x_e2]
    show (seqForward (make_layer 32 64 2 false r.e2) _).shape = _
    exact make_layer_seq_shape 32 64 2 false r.e2 _ b0 (4 * mh) (4 * mw) hp2
      (by omega) (by omega) (by omega)
  have hp3 : (maxPool2 (MSHNet.x_e2 (MSHNet.init c pc r) x)).shape
      = ⟨b0, 64, 2 * mh, 2 * mw⟩ := by
    rw [maxPool2_shape, he2]; simp; omega
  have he3 : (MSHNet.x_e3 (MSHNet.init c pc r) x).shape = ⟨b0, 128, 2 * mh, 2 * mw⟩ := by
    rw [MSHNet.x_e3]
    show (seqForward (make_layer 64 128 2 false r.e3) _).shape = _
    exact make_layer_seq_shape 64 128 2 false r.e3 _ b0 (2 * mh) (2 * mw) hp3
      (by omega) (by omega) (by omega)
  have hp4 : (maxPool2 (MSHNet.x_e3 (MSHNet.init c pc r) x)).shape
      = ⟨b0, 128, mh, mw⟩ := by
    rw [maxPool2_shape, he3]; simp
  have hm : (MSHNet.x_m (MSHNet.init c pc r) x).shape = ⟨b0, 256, mh, mw⟩ := by
    rw [MSHNet.x_m]
    show (seqForward (make_layer 128 256 2 false r.mid) _).shape = _
    exact make_layer_seq_shape 128 256 2 false r.mid _ b0 mh mw hp4
      (by omega) hmh hmw
  have hc3 : (catC (MSHNet.x_e3 (MSHNet.init c pc r) x)
      (upsampleBilinear (MSHNet.init c pc r).up_scale (MSHNet.x_m (MSHNet.init c pc r) x))).shape
      = ⟨b0, 128 + 256, 2 * mh, 2 * mw⟩ := by
    rw [catC_shape, upsampleBilinear_shape, he3, hm]
  have hd3 : (MSHNet.x_d3 (MSHNet.init c pc r) x).shape = ⟨b0, 128, 2 * mh, 2 * mw⟩ := by
    rw [MSHNet.x_d3]
    show (seqForward (make_layer (128 + 256) 128 2 false r.d3) _).shape = _
    exact make_layer_seq_shape (128 + 256) 128 2 false r.d3 _ b0 (2 * mh) (2 * mw) hc3
      (by omega) (by omega) (by omega)
  have hc2 : (catC (MSHNet.x_e2 (MSHNet.init c pc r) x)
      (upsampleBilinear (MSHNet.init c pc r).up_scale (MSHNet.x_d3 (MSHNet.init c pc r) x))).shape
      = ⟨b0, 64 + 128, 4 * mh, 4 * mw⟩ := by
    rw [catC_shape, upsampleBilinear_shape, he2, hd3]
  have hd2 : (MSHNet.x_d2 (MSHNet.init c pc r) x).shape = ⟨b0, 64, 4 * mh, 4 * mw⟩ := by
    rw [MSHNet.x_d2]
    show (seqForward (make_layer (64 + 128) 64 2 false r.d2) _).shape = _
    exact make_layer_seq_shape (64 + 128) 64 2 false r.d2 _ b0 (4 * mh) (4 * mw) hc2
      (by omega) (by omega) (by omega)
  have hc1 : (catC (MSHNet.x_e1 (MSHNet.init c pc r) x)
      (upsampleBilinear (MSHNet.init c pc r).up_scale (MSHNet.x_d2 (MSHNet.init c pc r) x))).shape
      = ⟨b0, 32 + 64, 8 * mh, 8 * mw⟩ := by
    rw [catC_shape, upsampleBilinear_shape, he1, hd2]
  have hd1 : (MSHNet.x_d1 (MSHNet.init c pc r) x).shape = ⟨b0, 32, 8 * mh, 8 * mw⟩ := by
    rw [MSHNet.x_d1]
    show (seqForward (make_layer (32 + 64) 32 2 false r.d1) _).shape = _
    exact make_layer_seq_shape (32 + 64) 32 2 false r.d1 _ b0 (8 * mh) (8 * mw) hc1
      (by omega) (by omega) (by omega)
  have hc0 : (catC (MSHNet.x_e0 (MSHNet.init c pc r) x)
      (upsampleBilinear (MSHNet.init c pc r).up_scale (MSHNet.x_d1 (MSHNet.init c pc r) x))).shape
      = ⟨b0, 16 + 32, 16 * mh, 16 * mw⟩ := by
    rw [catC_shape, upsampleBilinear_shape, he0, hd1]
  have hd0 : (MSHNet.x_d0 (MSHNet.init c pc r) x).shape = ⟨b0, 16, 16 * mh, 16 * mw⟩ := by
    rw [MSHNet.x_d0]
    show (seqForward (make_layer (16 + 32) 16 1 false r.d0) _).shape = _
    exact make_layer_seq_shape (16 + 32) 16 1 false r.d0 _ b0 (16 * mh) (16 * mw) hc0
      (by omega) (by omega) (by omega)
  exact ⟨he0, he1, he2, he3, hm, hd3, hd2, hd1, hd0⟩

/-- Unfolding of the supervision branch of `MSHNet.forward`. -/
theorem mshnet_forward_true_eq (m : MSHNetL) (x : Tensor) :
    MSHNet.forward m x true =
      ([m.output_0.apply (MSHNet.x_d0 m x), m.output_1.apply (MSHNet.x_d1 m x),
        m.output_2.apply (MSHNet.x_d2 m x), m.output_3.apply (MSHNet.x_d3 m x)],
       m.final.apply (catC (catC (catC (m.output_0.apply (MSHNet.x_d0 m x))
           (upsampleBilinear m.up_scale (m.output_1.apply (MSHNet.x_d1 m x))))
         (upsampleBilinear m.up_4_scale (m.output_2.apply (MSHNet.x_d2 m x))))
         (upsampleBilinear m.up_8_scale (m.output_3.apply (MSHNet.x_d3 m x))))) := rfl

/-- Unfolding of the default branch of `MSHNet.forward`. -/
theorem mshnet_forward_false_eq (m : MSHNetL) (x : Tensor) :
    MSHNet.forward m x false = ([], m.output_0.apply (MSHNet.x_d0 m x)) := rfl

/-- C1: in supervision mode (`warm_flag` true), on an input of shape
`(b, C, H, W)` with `H` and `W` positive multiples of 16, `MSHNet.forward`
returns four auxiliary maps of shapes `(b,1,H,W)`, `(b,1,H/2,W/2)`,
`(b,1,H/4,W/4)`, `(b,1,H/8,W/8)` plus a fused map of shape `(b,1,H,W)`. -/
theorem mshnet_warm_output_shapes (c : ℕ) (pc : Bool) (r : MSHNetRaw)
    (x : Tensor) (b0 ch H W : ℕ) (hx : x.shape = ⟨b0, ch, H, W⟩)
    (h16H : 16 ∣ H) (h16W : 16 ∣ W) (h0H : 0 < H) (h0W : 0 < W) :
    ((MSHNet.forward (MSHNet.init c pc r) x true).1.map Tensor.shape =
      [⟨b0, 1, H, W⟩, ⟨b0, 1, H / 2, W / 2⟩, ⟨b0, 1, H / 4, W / 4⟩,
        ⟨b0, 1, H / 8, W / 8⟩])
    ∧ (MSHNet.forward (MSHNet.init c pc r) x true).2.shape = ⟨b0, 1, H, W⟩ := by
  obtain ⟨mh, rfl⟩ := h16H
  obtain ⟨mw, rfl⟩ := h16W
  obtain ⟨he0, he1, he2, he3, hm, hd3, hd2, hd1, hd0⟩ :=
    mshnet_core_shapes c pc r x b0 ch mh mw hx (by omega) (by omega)
  have hm0 : ((MSHNet.init c pc r).output_0.apply
      (MSHNet.x_d0 (MSHNet.init c pc r) x)).shape = ⟨b0, 1, 16 * mh, 16 * mw⟩ := by
    rw [conv2dL_apply_shape, hd0]
    simp [MSHNet.init, convOutDim]
    omega
  have hm1 : ((MSHNet.init c pc r).output_1.apply
      (MSHNet.x_d1 (MSHNet.init c pc r) x)).shape = ⟨b0, 1, 8 * mh, 8 * mw⟩ := by
    rw [conv2dL_apply_shape, hd1]
    simp [MSHNet.init, convOutDim]
    omega
  have hm2 : ((MSHNet.init c pc r).output_2.apply
      (MSHNet.x_d2 (MSHNet.init c pc r) x)).shape = ⟨b0, 1, 4 * mh, 4 * mw⟩ := by
    rw [conv2dL_apply_shape, hd2]
    simp [MSHNet.init, convOutDim]
    omega
  have hm3 : ((MSHNet.init c pc r).output_3.apply
      (MSHNet.x_d3 (MSHNet.init c pc r) x)).shape = ⟨b0, 1, 2 * mh, 2 * mw⟩ := by
    rw [conv2dL_apply_shape, hd3]
    simp [MSHNet.init, convOutDim]
    omega
  have hu1 : (upsampleBilinear (MSHNet.init c pc r).up_scale
      ((MSHNet.init c pc r).output_1.apply (MSHNet.x_d1 (MSHNet.init c pc r) x))).shape
      = ⟨b0, 1, 16 * mh, 16 * mw⟩ := by
    rw [upsampleBilinear_shape, hm1]
    simp [MSHNet.init]
    omega
  have hu2 : (upsampleBilinear (MSHNet.init c pc r).up_4_scale
      ((MSHNet.init c pc r).output_2.apply (MSHNet.x_d2 (MSHNet.init c pc r) x))).shape
      = ⟨b0, 1, 16 * mh, 16 * mw⟩ := by
    rw [upsampleBilinear_shape, hm2]
    simp [MSHNet.init]
    omega
  have hu3 : (upsampleBilinear (MSHNet.init c pc r).up_8_scale
      ((MSHNet.init c pc r).output_3.apply (MSHNet.x_d3 (MSHNet.init c pc r) x))).shape
      = ⟨b0, 1, 16 * mh, 16 * mw⟩ := by
    rw [upsampleBilinear_shape, hm3]
    simp [MSHNet.init]
    omega
  have hcat1 : (catC ((MSHNet.init c pc r).output_0.apply
        (MSHNet.x_d0 (MSHNet.init c pc r) x))
      (upsampleBilinear (MSHNet.init c pc r).up_scale
        ((MSHNet.init c pc r).output_1.apply
          (MSHNet.x_d1 (MSHNet.init c pc r) x)))).shape
      = ⟨b0, 2, 16 * mh, 16 * mw⟩ := by
    rw [catC_shape, hm0, hu1]
    simp
  have hcat2 : (catC (catC ((MSHNet.init c pc r).output_0.apply
        (MSHNet.x_d0 (MSHNet.init c pc r) x))
      (upsampleBilinear (MSHNet.init c pc r).up_scale
        ((MSHNet.init c pc r).output_1.apply
          (MSHNet.x_d1 (MSHNet.init c pc r) x))))
      (upsampleBilinear (MSHNet.init c pc r).up_4_scale
        ((MSHNet.init c pc r).output_2.apply
          (MSHNet.x_d2 (MSHNet.init c pc r) x)))).shape
      = ⟨b0, 3, 16 * mh, 16 * mw⟩ := by
    rw [catC_shape, hcat1, hu2]
    simp
  have hcat3 : (catC (catC (catC ((MSHNet.init c pc r).output_0.apply
        (MSHNet.x_d0 (MSHNet.init c pc r) x))
      (upsampleBilinear (MSHNet.init c pc r).up_scale
        ((MSHNet.init c pc r).output_1.apply
          (MSHNet.x_d1 (MSHNet.init c pc r) x))))
      (upsampleBilinear (MSHNet.init c pc r).up_4_scale
        ((MSHNet.init c pc r).output_2.apply
          (MSHNet.x_d2 (MSHNet.init c pc r) x))))
      (upsampleBilinear (MSHNet.init c pc r).up_8_scale
        ((MSHNet.init c pc r).output_3.apply
          (MSHNet.x_d3 (MSHNet.init c pc r) x)))).shape
      = ⟨b0, 4, 16 * mh, 16 * mw⟩ := by
    rw [catC_shape, hcat2, hu3]
    simp
  have hfin : ((MSHNet.init c pc r).final.apply
      (catC (catC (catC ((MSHNet.init c pc r).output_0.apply
        (MSHNet.x_d0 (MSHNet.init c pc r) x))
      (upsampleBilinear (MSHNet.init c pc r).up_scale
        ((MSHNet.init c pc r).output_1.apply
          (MSHNet.x_d1 (MSHNet.init c pc r) x))))
      (upsampleBilinear (MSHNet.init c pc r).up_4_scale
        ((MSHNet.init c pc r).output_2.apply
          (MSHNet.x_d2 (MSHNet.init c pc r) x))))
      (upsampleBilinear (MSHNet.init c pc r).up_8_scale
        ((MSHNet.init c pc r).output_3.apply
          (MSHNet.x_d3 (MSHNet.init c pc r) x))))).shape
      = ⟨b0, 1, 16 * mh, 16 * mw⟩ := by
    rw [conv2dL_apply_shape, hcat3]
    simp [MSHNet.init, convOutDim]
    omega
  rw [mshnet_forward_true_eq]
  have e2h : 16 * mh / 2 = 8 * mh := by omega
  have e2w : 16 * mw / 2 = 8 * mw := by omega
  have e4h : 16 * mh / 4 = 4 * mh := by omega
  have e4w : 16 * mw / 4 = 4 * mw := by omega
  have e8h : 16 * mh / 8 = 2 * mh := by omega
  have e8w : 16 * mw / 8 = 2 * mw := by omega
  constructor
  · simp only [List.map_cons, List.map_nil]
    rw [hm0, hm1, hm2, hm3, e2h, e2w, e4h, e4w, e8h, e8w]
  · exact hfin

/-- Witness for C1: the concrete scenario (1, 3, 256, 256) with `PC=True`
gives auxiliary maps (1,1,256,256), (1,1,128,128), (1,1,64,64), (1,1,32,32)
and a fused map (1,1,256,256). -/
theorem mshnet_warm_output_shapes_witness :
    ((MSHNet.forward (MSHNet.init 3 true mr0) x256 true).1.map Tensor.shape =
      [⟨1, 1, 256, 256⟩, ⟨1, 1, 128, 128⟩, ⟨1, 1, 64, 64⟩, ⟨1, 1, 32, 32⟩])
    ∧ (MSHNet.forward (MSHNet.init 3 true mr0) x256 true).2.shape
      = ⟨1, 1, 256, 256⟩ :=
  mshnet_warm_output_shapes 3 true mr0 x256 1 3 256 256 rfl (by decide) (by decide)
    (by decide) (by decide)

/-- C2: in default mode (`warm_flag` false), `MSHNet.forward` returns an
empty auxiliary list together with the single 1×1 convolution `output_0`
applied to the finest decoder output `x_d0`, a map of shape
`(b, 1, H, W)`. -/
theorem mshnet_default_output (c : ℕ) (pc : Bool) (r : MSHNetRaw)
    (x : Tensor) (b0 ch H W : ℕ) (hx : x.shape = ⟨b0, ch, H, W⟩)
    (h16H : 16 ∣ H) (h16W : 16 ∣ W) (h0H : 0 < H) (h0W : 0 < W) :
    (MSHNet.forward (MSHNet.init c pc r) x false).1 = []
    ∧ (MSHNet.forward (MSHNet.init c pc r) x false).2 =
        conv2dApply 16 1 1 1 1 0 0 r.out0W r.out0B
          (MSHNet.x_d0 (MSHNet.init c pc r) x)
    ∧ (MSHNet.forward (MSHNet.init c pc r) x false).2.shape = ⟨b0, 1, H, W⟩ := by
  obtain ⟨mh, rfl⟩ := h16H
  obtain ⟨mw, rfl⟩ := h16W
  obtain ⟨he0, he1, he2, he3, hm, hd3, hd2, hd1, hd0⟩ :=
    mshnet_core_shapes c pc r x b0 ch mh mw hx (by omega) (by omega)
  refine ⟨rfl, rfl, ?_⟩
  rw [mshnet_forward_false_eq]
  show ((MSHNet.init c pc r).output_0.apply (MSHNet.x_d0 (MSHNet.init c pc r) x)).shape = _
  rw [conv2dL_apply_shape, hd0]
  simp [MSHNet.init, convOutDim]
  omega

/-- Witness for C2: the concrete scenario (1, 3, 256, 256), flag false. -/
theorem mshnet_default_output_witness :
    (MSHNet.forward (MSHNet.init 3 false mr0) x256 false).1 = []
    ∧ (MSHNet.forward (MSHNet.init 3 false mr0) x256 false).2 =
        conv2dApply 16 1 1 1 1 0 0 mr0.out0W mr0.out0B
          (MSHNet.x_d0 (MSHNet.init 3 false mr0) x256)
    ∧ (MSHNet.forward (MSHNet.init 3 false mr0) x256 false).2.shape
      = ⟨1, 1, 256, 256⟩ :=
  mshnet_default_output 3 false mr0 x256 1 3 256 256 rfl (by decide) (by decide)
    (by decide) (by decide)

/-- C3: a stride-1 `PConv` with `4 ∣ c2` and kernel `k ≥ 1`: the shared
width-wise convolution on the first two padded variants and the shared
height-wise convolution on the other two each yield `c2/4` channels at the
common spatial size `(H+1) × (W+1)`; their channel concatenation has `c2`
channels; and the final 2×2 stride-1 unpadded convolution contracts the
result back to `(b, c2, H, W)`. -/
theorem pconv_spec (c1 c2 k : ℕ) (pr : PConvRaw) (x : Tensor) (b0 C H W : ℕ)
    (hx : x.shape = ⟨b0, C, H, W⟩) (h4 : 4 ∣ c2) (hk : 1 ≤ k)
    (hH : 0 < H) (hW : 0 < W) :
    (let l := PConv.init c1 c2 k 1 pr
     let yw0 := l.cw.forward (zeroPad2d k 0 1 0 x)
     let yw1 := l.cw.forward (zeroPad2d 0 k 0 1 x)
     let yh0 := l.ch.forward (zeroPad2d 0 1 k 0 x)
     let yh1 := l.ch.forward (zeroPad2d 1 0 0 k x)
     yw0.shape = ⟨b0, c2 / 4, H + 1, W + 1⟩
     ∧ yw1.shape = yw0.shape ∧ yh0.shape = yw0.shape ∧ yh1.shape = yw0.shape
     ∧ (catC (catC (catC yw0 yw1) yh0) yh1).shape.channels = c2
     ∧ PConv.forward l x = l.cat.forward (catC (catC (catC yw0 yw1) yh0) yh1)
     ∧ (PConv.forward l x).shape = ⟨b0, c2, H, W⟩) := by
  dsimp only
  have hyw0 : ((PConv.init c1 c2 k 1 pr).cw.forward (zeroPad2d k 0 1 0 x)).shape
      = ⟨b0, c2 / 4, H + 1, W + 1⟩ := by
    simp [ConvLayer.forward, PConv.init, Conv.init, autopad, siluT, batchNorm2d,
      conv2dApply, zeroPad2d, hx, convOutDim]
    omega
  have hyw1 : ((PConv.init c1 c2 k 1 pr).cw.forward (zeroPad2d 0 k 0 1 x)).shape
      = ⟨b0, c2 / 4, H + 1, W + 1⟩ := by
    simp [ConvLayer.forward, PConv.init, Conv.init, autopad, siluT, batchNorm2d,
      conv2dApply, zeroPad2d, hx, convOutDim]
    omega
  have hyh0 : ((PConv.init c1 c2 k 1 pr).ch.forward (zeroPad2d 0 1 k 0 x)).shape
      = ⟨b0, c2 / 4, H + 1, W + 1⟩ := by
    simp [ConvLayer.forward, PConv.init, Conv.init, autopad, siluT, batchNorm2d,
      conv2dApply, zeroPad2d, hx, convOutDim]
    omega
  have hyh1 : ((PConv.init c1 c2 k 1 pr).ch.forward (zeroPad2d 1 0 0 k x)).shape
      = ⟨b0, c2 / 4, H + 1, W + 1⟩ := by
    simp [ConvLayer.forward, PConv.init, Conv.init, autopad, siluT, batchNorm2d,
      conv2dApply, zeroPad2d, hx, convOutDim]
    omega
  have hch : (catC (catC (catC
      ((PConv.init c1 c2 k 1 pr).cw.forward (zeroPad2d k 0 1 0 x))
      ((PConv.init c1 c2 k 1 pr).cw.forward (zeroPad2d 0 k 0 1 x)))
      ((PConv.init c1 c2 k 1 pr).ch.forward (zeroPad2d 0 1 k 0 x)))
      ((PConv.init c1 c2 k 1 pr).ch.forward (zeroPad2d 1 0 0 k x))).shape.channels
      = c2 := by
    rw [catC_shape]
    simp only [catC_shape, hyw0, hyw1, hyh0, hyh1]
    omega
  exact ⟨hyw0, by rw [hyw1, hyw0], by rw [hyh0, hyw0], by rw [hyh1, hyw0], hch, rfl,
    pconv_forward_shape c1 c2 k pr x b0 C H W hx hk hH hW⟩

/-- Witness for C3: the spec scenario `c1=16`, `c2=32`, `k=4`, stride 1 on
a 64×64 input produces a 32-channel output at the same spatial size. -/
theorem pconv_spec_witness :
    (let l := PConv.init 16 32 4 1 pr0
     let yw0 := l.cw.forward (zeroPad2d 4 0 1 0 x64)
     let yw1 := l.cw.forward (zeroPad2d 0 4 0 1 x64)
     let yh0 := l.ch.forward (zeroPad2d 0 1 4 0 x64)
     let yh1 := l.ch.forward (zeroPad2d 1 0 0 4 x64)
     yw0.shape = ⟨1, 32 / 4, 64 + 1, 64 + 1⟩
     ∧ yw1.shape = yw0.shape ∧ yh0.shape = yw0.shape ∧ yh1.shape = yw0.shape
     ∧ (catC (catC (catC yw0 yw1) yh0) yh1).shape.channels = 32
     ∧ PConv.forward l x64 = l.cat.forward (catC (catC (catC yw0 yw1) yh0) yh1)
     ∧ (PConv.forward l x64).shape = ⟨1, 32, 64, 64⟩) :=
  pconv_spec 16 32 4 pr0 x64 1 16 64 64 rfl (by decide) (by decide) (by decide)
    (by decide)

/-- C4: the shortcut of a `ResNet` block is absent (identity) exactly when
the stride is 1 and the channel counts agree; otherwise it is the 1×1
convolution with the block's stride followed by batch normalization
projecting to `out_channels`; and a stride-1 block with equal channel
counts preserves the input shape. -/
theorem resnet_shortcut_spec (cin cout s : ℕ) (pc : Bool) (rr : ResNetRaw) :
    ((ResNet.init cin cout s pc rr).shortcut = none ↔ (s = 1 ∧ cout = cin))
    ∧ ((s = 1 ∧ cout = cin) →
        ∀ x : Tensor, ResNet.residual (ResNet.init cin cout s pc rr) x = x)
    ∧ (¬(s = 1 ∧ cout = cin) →
        (ResNet.init cin cout s pc rr).shortcut = some rr.sc
        ∧ ∀ x : Tensor, ResNet.residual (ResNet.init cin cout s pc rr) x =
            batchNorm2d rr.sc.bn
              (conv2dApply cin cout 1 1 s 0 0 rr.sc.w rr.sc.b x))
    ∧ (∀ (x : Tensor) (b0 H W : ℕ), x.shape = ⟨b0, cin, H, W⟩ →
        cout = cin → s = 1 → 0 < cout → 0 < H → 0 < W →
        (ResNet.forward (ResNet.init cin cout s pc rr) x).shape = x.shape) := by
  refine ⟨?_, ?_, ?_, ?_⟩
  · by_cases h1 : s = 1
    · by_cases h2 : cout = cin <;> simp [ResNet.init, h1, h2]
    · simp [ResNet.init, h1]
  · rintro ⟨h1, h2⟩ x
    simp [ResNet.residual, ResNet.init, h1, h2]
  · intro h
    have hor : s ≠ 1 ∨ cout ≠ cin := by tauto
    have hsc : (ResNet.init cin cout s pc rr).shortcut = some rr.sc := by
      simp only [ResNet.init]
      rw [if_pos hor]
    refine ⟨hsc, fun x => ?_⟩
    unfold ResNet.residual
    rw [hsc]
    simp [ResNet.init]
  · intro x b0 H W hx hco hs h0c h0H h0W
    subst hs
    have hsh := resnet_forward_shape cin cout pc rr x b0 H W hx h0c h0H h0W
    rw [hx, hsh, hco]

/-- Witness for C4: a 16→16 stride-1 block has no shortcut and preserves
the shape of a (1,16,8,8) input; a 16→32 stride-2 block has the projection
shortcut. -/
theorem resnet_shortcut_spec_witness :
    ((ResNet.init 16 16 1 false rr0).shortcut = none ↔ (1 = 1 ∧ 16 = 16))
    ∧ ResNet.residual (ResNet.init 16 16 1 false rr0) x16 = x16
    ∧ (ResNet.init 16 32 2 false rr0).shortcut = some rr0.sc
    ∧ (ResNet.forward (ResNet.init 16 16 1 false rr0) x16).shape = x16.shape :=
  ⟨(resnet_shortcut_spec 16 16 1 false rr0).1,
   (resnet_shortcut_spec 16 16 1 false rr0).2.1 (by decide) x16,
   ((resnet_shortcut_spec 16 32 2 false rr0).2.2.1 (by decide)).1,
   (resnet_shortcut_spec 16 16 1 false rr0).2.2.2 x16 1 8 8 rfl rfl rfl
     (by decide) (by decide) (by decide)⟩

/-- C5: in supervision mode the three coarser auxiliary maps are upsampled
by factors 2, 4 and 8 before the channel concatenation and the fusing 3×3
convolution; the module named `up_16` is constructed with scale factor 4
(not 16), and replacing its scale factor by anything does not change the
forward computation (it is never used). -/
theorem mshnet_upsampling_factors (c : ℕ) (pc : Bool) (r : MSHNetRaw)
    (x : Tensor) (f : Bool) :
    (MSHNet.init c pc r).up_16_scale = 4
    ∧ (∀ (m : MSHNetL) (s : ℕ), MSHNet.forward (setUp16 m s) x f = MSHNet.forward m x f)
    ∧ MSHNet.forward (MSHNet.init c pc r) x true =
        ([(MSHNet.init c pc r).output_0.apply (MSHNet.x_d0 (MSHNet.init c pc r) x),
          (MSHNet.init c pc r).output_1.apply (MSHNet.x_d1 (MSHNet.init c pc r) x),
          (MSHNet.init c pc r).output_2.apply (MSHNet.x_d2 (MSHNet.init c pc r) x),
          (MSHNet.init c pc r).output_3.apply (MSHNet.x_d3 (MSHNet.init c pc r) x)],
         (MSHNet.init c pc r).final.apply
           (catC (catC (catC
             ((MSHNet.init c pc r).output_0.apply (MSHNet.x_d0 (MSHNet.init c pc r) x))
             (upsampleBilinear 2
               ((MSHNet.init c pc r).output_1.apply (MSHNet.x_d1 (MSHNet.init c pc r) x))))
             (upsampleBilinear 4
               ((MSHNet.init c pc r).output_2.apply (MSHNet.x_d2 (MSHNet.init c pc r) x))))
             (upsampleBilinear 8
               ((MSHNet.init c pc r).output_3.apply (MSHNet.x_d3 (MSHNet.init c pc r) x))))) :=
  ⟨rfl, fun _ _ => rfl, rfl⟩

/-- C6: the supervision flag only selects which output heads are applied:
`MSHNet.forward` factors through the flag-independent `MSHNet.core` (the
encoder outputs, the bottleneck output and the four decoder outputs), so
those intermediates are identical for `warm_flag = true` and
`warm_flag = false`. -/
theorem mshnet_flag_only_selects_heads (m : MSHNetL) (x : Tensor) :
    MSHNet.forward m x true = MSHNet.warmHeads m (MSHNet.core m x)
    ∧ MSHNet.forward m x false = ([], m.output_0.apply (MSHNet.core m x).x_d0) :=
  ⟨rfl, rfl⟩

/-- C7: every entry of a channel-attention output is strictly between 0
and 1 (the summed bottleneck outputs pass through the sigmoid gate). -/
theorem channelAttention_gate_bounds (l : ChannelAttentionL) (x : Tensor)
    (b c i j : ℕ) :
    0 < (ChannelAttention.forward l x).data b c i j
    ∧ (ChannelAttention.forward l x).data b c i j < 1 :=
  ⟨sigmoid_pos _, sigmoid_lt_one _⟩

/-- C8: a spatial-attention output (kernel size 3 or 7) has exactly one
channel and the input's spatial size, and every entry is strictly between
0 and 1. -/
theorem spatialAttention_spec (k : ℕ) (w : ℕ → ℕ → ℕ → ℕ → ℝ) (x : Tensor)
    (b0 C H W : ℕ) (hx : x.shape = ⟨b0, C, H, W⟩)
    (hk : k = 3 ∨ k = 7) (hH : 0 < H) (hW : 0 < W) :
    (SpatialAttention.forward ⟨k, w⟩ x).shape = ⟨b0, 1, H, W⟩
    ∧ ∀ b c i j : ℕ, 0 < (SpatialAttention.forward ⟨k, w⟩ x).data b c i j
        ∧ (SpatialAttention.forward ⟨k, w⟩ x).data b c i j < 1 :=
  ⟨spatialAttention_shape ⟨k, w⟩ x b0 C H W hx hk hH hW,
   fun _ _ _ _ => ⟨sigmoid_pos _, sigmoid_lt_one _⟩⟩

/-- Witness for C8: kernel size 7 on a (1,16,8,8) input. -/
theorem spatialAttention_spec_witness :
    (SpatialAttention.forward ⟨7, fun _ _ _ _ => 0⟩ x16).shape = ⟨1, 1, 8, 8⟩
    ∧ 0 < (SpatialAttention.forward ⟨7, fun _ _ _ _ => 0⟩ x16).data 0 0 0 0
    ∧ (SpatialAttention.forward ⟨7, fun _ _ _ _ => 0⟩ x16).data 0 0 0 0 < 1 :=
  ⟨(spatialAttention_spec 7 (fun _ _ _ _ => 0) x16 1 16 8 8 rfl (Or.inr rfl)
      (by decide) (by decide)).1,
   ((spatialAttention_spec 7 (fun _ _ _ _ => 0) x16 1 16 8 8 rfl (Or.inr rfl)
      (by decide) (by decide)).2 0 0 0 0).1,
   ((spatialAttention_spec 7 (fun _ _ _ _ => 0) x16 1 16 8 8 rfl (Or.inr rfl)
      (by decide) (by decide)).2 0 0 0 0).2⟩

/-- C9: a standard (non-partial) `ResNet` block computes, in order:
convolution, normalization, rectification, convolution, normalization,
channel-attention gate, spatial-attention gate; its output is that result
added to the shortcut result and rectified. -/
theorem resnet_standard_order (cin cout s : ℕ) (rr : ResNetRaw) (x : Tensor) :
    ResNet.forward (ResNet.init cin cout s false rr) x =
      reluT (addB
        (mulB
          (SpatialAttention.forward ⟨7, rr.saConv1w⟩
            (mulB
              (ChannelAttention.forward ⟨cout, rr.caFc1w, rr.caFc2w⟩
                (batchNorm2d rr.bn2 (conv2dApply cout cout 3 3 1 1 1
                  rr.conv2w rr.conv2b
                  (reluT (batchNorm2d rr.bn1 (conv2dApply cin cout 3 3 s 1 1
                    rr.conv1w rr.conv1b x))))))
              (batchNorm2d rr.bn2 (conv2dApply cout cout 3 3 1 1 1
                rr.conv2w rr.conv2b
                (reluT (batchNorm2d rr.bn1 (conv2dApply cin cout 3 3 s 1 1
                  rr.conv1w rr.conv1b x)))))))
          (mulB
            (ChannelAttention.forward ⟨cout, rr.caFc1w, rr.caFc2w⟩
              (batchNorm2d rr.bn2 (conv2dApply cout cout 3 3 1 1 1
                rr.conv2w rr.conv2b
                (reluT (batchNorm2d rr.bn1 (conv2dApply cin cout 3 3 s 1 1
                  rr.conv1w rr.conv1b x))))))
            (batchNorm2d rr.bn2 (conv2dApply cout cout 3 3 1 1 1
              rr.conv2w rr.conv2b
              (reluT (batchNorm2d rr.bn1 (conv2dApply cin cout 3 3 s 1 1
                rr.conv1w rr.conv1b x)))))))
        (ResNet.residual (ResNet.init cin cout s false rr) x)) := rfl

/-- C10: with `PC=True`, the single block of `encoder_0` is the only
partial-convolution block: `_make_layer` passes `PC` only to its first
block, and every other stage is built with the default `PC=False`, so all
15 blocks of encoder stages 1–3, the bottleneck and the decoders are
standard blocks. -/
theorem mshnet_pc_only_first (c : ℕ) (r : MSHNetRaw) :
    (∀ (cin cout n : ℕ) (pc : Bool) (ps : ℕ → ResNetRaw),
        (make_layer cin cout n pc ps).head? = some (ResNet.init cin cout 1 pc (ps 0))
        ∧ ∀ blk ∈ (make_layer cin cout n pc ps).tail, blk.PC = false)
    ∧ (MSHNet.init c true r).encoder_0.map (fun blk => blk.PC) = [true]
    ∧ ((MSHNet.init c true r).encoder_1 ++ (MSHNet.init c true r).encoder_2
        ++ (MSHNet.init c true r).encoder_3 ++ (MSHNet.init c true r).middle_layer
        ++ (MSHNet.init c true r).decoder_3 ++ (MSHNet.init c true r).decoder_2
        ++ (MSHNet.init c true r).decoder_1 ++ (MSHNet.init c true r).decoder_0).map
          (fun blk => blk.PC) = List.replicate 15 false := by
  refine ⟨?_, rfl, rfl⟩
  intro cin cout n pc ps
  refine ⟨rfl, ?_⟩
  intro blk hblk
  simp only [make_layer, List.tail_cons, List.mem_map, List.mem_range] at hblk
  obtain ⟨i, hi, rfl⟩ := hblk
  rfl

/-- Witness for C10: in a two-block stage the first block carries the
given flag and the second block of the tail is standard; with `PC=True`
the first encoder stage is the single partial block. -/
theorem mshnet_pc_only_first_witness :
    (make_layer 16 32 2 false (fun _ => rr0)).head?
      = some (ResNet.init 16 32 1 false rr0)
    ∧ (ResNet.init 32 32 1 false rr0).PC = false
    ∧ (MSHNet.init 3 true mr0).encoder_0.map (fun blk => blk.PC) = [true] :=
  ⟨((mshnet_pc_only_first 3 mr0).1 16 32 2 false (fun _ => rr0)).1,
   ((mshnet_pc_only_first 3 mr0).1 16 32 2 false (fun _ => rr0)).2
     (ResNet.init 32 32 1 false rr0) (by simp [make_layer]),
   (mshnet_pc_only_first 3 mr0).2.1⟩
